import Mathlib

/-!
# Verification of the ASRS Climate Scenario Analysis tool

A shallow embedding of `src/streamlit_app.py` (a single-file Streamlit app)
and proofs about it. All numbers are modelled as rationals (`ℚ`): every
numeric literal in the source is decimal and the arithmetic (sums, products,
division by 10) is exact over `ℚ`, so equalities proved here hold in
particular within any floating-point tolerance.

Python dictionaries that are only ever built once as literals are modelled
as association lists in insertion order; indexing `d[k]` is `List.lookup`,
whose `none` result models the `KeyError` crash; `d.get(k, default)` is
`Option.getD`. A `for` loop that either appends one item per iteration or
crashes is `traverseOpt`.
-/

set_option autoImplicit false

namespace ASRSClimate

/-- One entry of the `scenario_data` table (src lines 23-29): the fixed
parameters of a scenario. `risk_profile` is kept as a list, as in the
source; `risk_profile[0]` is embedded as `List.headD 0` (every catalog
entry has five components, so the default is never consulted there). -/
structure Scenario where
  carbon_price : ℚ
  temperature_pathway : String
  risk_profile : List ℚ
  physical_risk : ℚ
  deriving Repr, DecidableEq

/-- The `scenario_definitions` dict (src lines 14-20), in insertion order. -/
def scenario_definitions : List (String × String) :=
  [("Net Zero 2050",
    "Immediate and ambitious mitigation aligned with 1.5°C. (ASRS Ref: Strategy S2-6, Metrics M2-1)"),
   ("Delayed Transition",
    "Postponed mitigation leading to a sharper adjustment later. (ASRS Ref: Strategy S2-6, Risk R2-2)"),
   ("Hot House World",
    "No meaningful transition, resulting in >3°C warming. (ASRS Ref: Risk R2-1, Metrics M2-2)"),
   ("Immediate Disorderly Transition (2025 release)",
    "Aggressive action taken suddenly, creating short-term volatility. (ASRS Ref: Strategy S2-6, Governance G2-3)"),
   ("Current Policies Extension (2025 release)",
    "Continuation of current insufficient policies, high physical risks. (ASRS Ref: Risk R2-1, Strategy S2-6)")]

/-- The `"Net Zero 2050"` row of `scenario_data` (src line 24), named so
that concrete theorems can refer to it. -/
def netZeroParams : Scenario :=
  { carbon_price := 130, temperature_pathway := "1.5°C",
    risk_profile := [8, 3, 9, 7, 6], physical_risk := 0.2 }

/-- The `"Hot House World"` row of `scenario_data` (src line 26), named so
that concrete theorems can refer to it. -/
def hotHouseParams : Scenario :=
  { carbon_price := 0, temperature_pathway := ">3°C",
    risk_profile := [4, 9, 2, 5, 3], physical_risk := 0.7 }

/-- The `scenario_data` dict (src lines 23-29), in insertion order. -/
def scenario_data : List (String × Scenario) :=
  [("Net Zero 2050", netZeroParams),
   ("Delayed Transition",
    { carbon_price := 180, temperature_pathway := "2.4°C",
      risk_profile := [7, 5, 8, 6, 4], physical_risk := 0.4 }),
   ("Hot House World", hotHouseParams),
   ("Immediate Disorderly Transition (2025 release)",
    { carbon_price := 160, temperature_pathway := "<2°C",
      risk_profile := [9, 6, 8, 8, 5], physical_risk := 0.3 }),
   ("Current Policies Extension (2025 release)",
    { carbon_price := 20, temperature_pathway := ">3.5°C",
      risk_profile := [3, 10, 1, 4, 2], physical_risk := 0.8 })]

/-- The `industry_defaults` dict (src lines 35-41). -/
def industry_defaults : List (String × List String) :=
  [("Financial Services", ["Net Zero 2050", "Delayed Transition"]),
   ("Real Estate", ["Net Zero 2050", "Hot House World"]),
   ("Agriculture", ["Delayed Transition", "Hot House World"]),
   ("Energy", ["Immediate Disorderly Transition (2025 release)", "Net Zero 2050"]),
   ("Manufacturing", ["Current Policies Extension (2025 release)", "Delayed Transition"])]

/-- `default_scenarios = industry_defaults.get(industry, ["Net Zero 2050"])`
(src line 43): dict `.get` with a default never raises. -/
def default_scenarios (industry : String) : List String :=
  (List.lookup industry industry_defaults).getD ["Net Zero 2050"]

/-- `options=list(scenario_data.keys())` (src line 46). -/
def scenarioOptions : List String := scenario_data.map Prod.fst

/-- Models the value set of the scenario multiselect widget (src lines
44-49): `st.multiselect` returns a duplicate-free list of chosen option
values. The call passes no `max_selections` argument, so the widget
itself imposes no bound on how many of the options may be chosen; the
"up to 3" in the label is display text only. -/
def reachableSelection (sel : List String) : Prop :=
  sel.Nodup ∧ ∀ s ∈ sel, s ∈ scenarioOptions

instance (sel : List String) : Decidable (reachableSelection sel) :=
  inferInstanceAs (Decidable (_ ∧ _))

/-! ## Upload path (src lines 56-63)

`pd.read_csv` on a well-formed CSV yields a dataframe with named columns
and performs no validation; we embed the parsed dataframe directly. A cell
is either a string or a number. -/

/-- One dataframe cell. -/
inductive Cell where
  | str (s : String)
  | num (q : ℚ)
  deriving Repr, DecidableEq

/-- The numeric reading of a cell, as used by the column sum; the claims
and theorems only apply it to numeric cells. -/
def Cell.asNum : Cell → ℚ
  | Cell.str _ => 0
  | Cell.num q => q

/-- `True` iff the cell is numeric. -/
def Cell.isNum : Cell → Bool
  | Cell.str _ => false
  | Cell.num _ => true

/-- The parsed upload: a dataframe with a header row of column names and
data rows (rectangular in practice; positions past a row's end read as a
default and are never reached on rectangular frames). -/
structure DataFrame where
  columns : List String
  rows : List (List Cell)
  deriving Repr, DecidableEq

/-- `df[name]`: column extraction by header label; `none` models the
`KeyError` raised when the label is absent. -/
def DataFrame.getCol (df : DataFrame) (name : String) : Option (List Cell) :=
  (df.columns.findIdx? (fun c => c == name)).map
    (fun i => df.rows.map (fun r => r.getD i (Cell.num 0)))

/-- The parsed exposure values of the upload: the numeric readings of the
`"Exposure_M AUD"` column, in row order. -/
def exposureValues (df : DataFrame) : Option (List ℚ) :=
  (df.getCol "Exposure_M AUD").map (fun col => col.map Cell.asNum)

/-- `total_exposure = exposure_df["Exposure_M AUD"].sum()` (src line 62):
the sum of the exposure column; `none` models the `KeyError` when the
column is missing. No value is validated. -/
def totalExposure (df : DataFrame) : Option ℚ :=
  (df.getCol "Exposure_M AUD").map (fun col => (col.map Cell.asNum).sum)

/-! ## Plumbing: a `for` loop that appends one item per iteration or
crashes (a `KeyError` inside the body aborts the whole script). -/

/-- Run `f` over the list left to right, collecting the results in order;
`none` as soon as any call fails. -/
def traverseOpt {α β : Type} (f : α → Option β) : List α → Option (List β)
  | [] => some []
  | a :: l => do
    let b ← f a
    let bs ← traverseOpt f l
    pure (b :: bs)

/-! ## Derived metrics at their two computation sites -/

/-- Bar-chart site (src line 93):
`var = total_exposure * (data["risk_profile"][0] / 10)`. -/
def chartVar (total : ℚ) (d : Scenario) : ℚ :=
  total * (d.risk_profile.headD 0 / 10)

/-- Bar-chart site (src line 94):
`loss = total_exposure * data["physical_risk"]`. -/
def chartLoss (total : ℚ) (d : Scenario) : ℚ :=
  total * d.physical_risk

/-- PDF site (src lines 122-123):
`var_multiplier = data["risk_profile"][0] / 10` and
`estimated_var = total_exposure * var_multiplier if exposure_file else 0`.
When `present` is `false` the `total` argument is a dummy: the Python
conditional never evaluates `total_exposure` in that branch (the name is
not even bound then). -/
def pdfEstimatedVar (present : Bool) (total : ℚ) (d : Scenario) : ℚ :=
  if present then total * (d.risk_profile.headD 0 / 10) else 0

/-- PDF site (src line 124):
`estimated_physical_loss = total_exposure * data["physical_risk"] if exposure_file else 0`. -/
def pdfEstimatedLoss (present : Bool) (total : ℚ) (d : Scenario) : ℚ :=
  if present then total * d.physical_risk else 0

/-! ## Chart outputs (src lines 66-111) -/

/-- One radar ring (src line 75): `scores = risk_profile + [risk_profile[0]]`. -/
def radarRing (d : Scenario) : List ℚ :=
  d.risk_profile ++ [d.risk_profile.headD 0]

/-- The radar chart (src lines 73-77): one labelled ring per selected
scenario, in selection order; `scenario_data[scenario]` may raise. -/
def radarChart (sel : List String) : Option (List (String × List ℚ)) :=
  traverseOpt (fun s => (List.lookup s scenario_data).map (fun d => (s, radarRing d))) sel

/-- One bar-chart group (src lines 91-96): the scenario name with its
transition VaR and physical loss. -/
def barChartGroup (total : ℚ) (name : String) : Option (String × ℚ × ℚ) :=
  (List.lookup name scenario_data).map (fun d => (name, chartVar total d, chartLoss total d))

/-- The bar-chart data (src lines 89-96), one group per selected scenario
in selection order. -/
def barChartGroups (sel : List String) (total : ℚ) : Option (List (String × ℚ × ℚ)) :=
  traverseOpt (barChartGroup total) sel

/-- The bar-chart surface: absent without an upload (the whole block is
guarded by `if exposure_file:`, src line 87), else rendered from the data. -/
inductive BarChart where
  | absent
  | rendered (groups : List (String × ℚ × ℚ))
  deriving Repr, DecidableEq

/-- Src lines 87-111 as one function of the selection and the upload
state; the outer `none` models a crash (missing exposure column at src
line 62 or an unknown scenario name). -/
def barChartOutput (sel : List String) (upload : Option DataFrame) : Option BarChart :=
  match upload with
  | none => some BarChart.absent
  | some df => do
    let total ← totalExposure df
    let gs ← barChartGroups sel total
    pure (BarChart.rendered gs)

/-! ## PDF export (src lines 115-137)

Each `pdf.multi_cell` call emits one line; we model the line stream
structurally, keeping the dynamic payload of each line. -/

/-- One emitted PDF line. -/
inductive PdfLine where
  | scenarioHeader (name : String)
  | description (text : String)
  | temperaturePathway (text : String)
  | carbonPrice (price : ℚ)
  | estimatedVaR (amount : ℚ)
  | estimatedLoss (amount : ℚ)
  | blank
  | exposureHeader
  | exposureRow (sector : String) (amount : ℚ)
  deriving Repr, DecidableEq

/-- The loop body for one selected scenario (src lines 120-132): the two
dict lookups may raise; the two estimate lines are emitted only when an
upload is present (`totalOpt = some total`), mirroring the
`if exposure_file:` guard at src line 129. -/
def scenarioSection (totalOpt : Option ℚ) (name : String) : Option (List PdfLine) :=
  match List.lookup name scenario_data, List.lookup name scenario_definitions with
  | some d, some desc =>
    some ([PdfLine.scenarioHeader name,
           PdfLine.description desc,
           PdfLine.temperaturePathway d.temperature_pathway,
           PdfLine.carbonPrice d.carbon_price] ++
          (match totalOpt with
           | some total =>
             [PdfLine.estimatedVaR (pdfEstimatedVar true total d),
              PdfLine.estimatedLoss (pdfEstimatedLoss true total d)]
           | none => []) ++
          [PdfLine.blank])
  | _, _ => none

/-- The string shown for a sector cell in the exposure listing. -/
def Cell.asText : Cell → String
  | Cell.str s => s
  | Cell.num q => toString q

/-- The exposure listing (src lines 134-137): a header line, then one line
per dataframe row with `row["Sector"]` and `row["Exposure_M AUD"]`; a
missing column is a `KeyError` (`none`). -/
def exposureListing (df : DataFrame) : Option (List PdfLine) :=
  match df.columns.findIdx? (fun c => c == "Sector"),
        df.columns.findIdx? (fun c => c == "Exposure_M AUD") with
  | some i, some j =>
    some (PdfLine.exposureHeader ::
          df.rows.map (fun r =>
            PdfLine.exposureRow ((r.getD i (Cell.num 0)).asText)
                                ((r.getD j (Cell.num 0)).asNum)))
  | _, _ => none

/-- The whole PDF body (src lines 115-137): the per-scenario sections in
selection order, then — exactly when a file was uploaded — the exposure
listing. -/
def generatePdf (sel : List String) (upload : Option DataFrame) : Option (List PdfLine) :=
  match upload with
  | none => (traverseOpt (scenarioSection none) sel).map List.flatten
  | some df => do
    let total ← totalExposure df
    let secs ← traverseOpt (scenarioSection (some total)) sel
    let listing ← exposureListing df
    pure (secs.flatten ++ listing)

/-! ## Observers on the emitted line stream -/

/-- The payload of a scenario header line, if the line is one. -/
def lineScenarioName : PdfLine → Option String
  | PdfLine.scenarioHeader n => some n
  | _ => none

/-- The payload of an estimated-transition-VaR line, if the line is one. -/
def lineVaR : PdfLine → Option ℚ
  | PdfLine.estimatedVaR q => some q
  | _ => none

/-- The payload of an estimated-physical-loss line, if the line is one. -/
def lineLoss : PdfLine → Option ℚ
  | PdfLine.estimatedLoss q => some q
  | _ => none

/-- `True` iff the line is the exposure-listing header. -/
def isExposureHeader : PdfLine → Bool
  | PdfLine.exposureHeader => true
  | _ => false

/-- The scenario names of the sections of a PDF, in order. -/
def scenarioHeaders (lines : List PdfLine) : List String :=
  lines.filterMap lineScenarioName

/-- The transition-VaR figures printed in a PDF, in order. -/
def estimateVaRs (lines : List PdfLine) : List ℚ :=
  lines.filterMap lineVaR

/-- The physical-loss figures printed in a PDF, in order. -/
def estimateLosses (lines : List PdfLine) : List ℚ :=
  lines.filterMap lineLoss

/-- How many exposure-listing headers a PDF contains. -/
def countExposureHeaders (lines : List PdfLine) : Nat :=
  lines.countP isExposureHeader

/-- The dataframe of the worked example in the spec: two sectors with
exposures 100 and 50. -/
def exDF : DataFrame :=
  { columns := ["Sector", "Exposure_M AUD"],
    rows := [[Cell.str "Financials", Cell.num 100],
             [Cell.str "Real Estate", Cell.num 50]] }

/-- A well-formed upload whose single exposure value is negative. -/
def negDF : DataFrame :=
  { columns := ["Sector", "Exposure_M AUD"],
    rows := [[Cell.str "Energy", Cell.num (-5)]] }

/-- A well-formed upload with both expected columns and no data rows. -/
def emptyRowsDF : DataFrame :=
  { columns := ["Sector", "Exposure_M AUD"], rows := [] }

/-- An upload missing the exposure column. -/
def noExposureColDF : DataFrame :=
  { columns := ["Sector"], rows := [[Cell.str "Energy"]] }

/-- The estimate block of a PDF section as a function of the upload
state, for stating inversion lemmas about `scenarioSection`. -/
def estimateLines (t : Option ℚ) (d : Scenario) : List PdfLine :=
  match t with
  | some total =>
    [PdfLine.estimatedVaR (pdfEstimatedVar true total d),
     PdfLine.estimatedLoss (pdfEstimatedLoss true total d)]
  | none => []

/-! ## Helper lemmas -/

theorem traverseOpt_cons_eq_some {α β : Type} {f : α → Option β} {a : α}
    {l : List α} {out : List β} (h : traverseOpt f (a :: l) = some out) :
    ∃ b bs, f a = some b ∧ traverseOpt f l = some bs ∧ out = b :: bs := by
  cases hfa : f a with
  | none => simp [traverseOpt, hfa] at h
  | some b =>
    cases hfl : traverseOpt f l with
    | none => simp [traverseOpt, hfa, hfl] at h
    | some bs =>
      refine ⟨b, bs, rfl, rfl, ?_⟩
      simp [traverseOpt, hfa, hfl] at h
      exact h.symm

/-- Pushing a per-element fact through `traverseOpt`: if each successful
call relates output to input via `g`/`k`, the collected outputs are the
mapped inputs. -/
theorem traverseOpt_map_rel {α β γ : Type} {f : α → Option β} {g : β → γ}
    {k : α → γ} (H : ∀ a b, f a = some b → g b = k a) :
    ∀ {l : List α} {bs : List β}, traverseOpt f l = some bs → bs.map g = l.map k
  | [], bs, h => by
    simp only [traverseOpt, Option.some.injEq] at h
    subst h
    rfl
  | a :: l, _, h => by
    obtain ⟨b, bs, hfa, hfl, rfl⟩ := traverseOpt_cons_eq_some h
    simp [H a b hfa, traverseOpt_map_rel H hfl]

/-- Each collected output of a successful `traverseOpt` comes from some
input. -/
theorem traverseOpt_forall {α β : Type} {f : α → Option β} {P : β → Prop}
    (H : ∀ a b, f a = some b → P b) :
    ∀ {l : List α} {bs : List β}, traverseOpt f l = some bs → ∀ b ∈ bs, P b
  | [], bs, h => by
    simp only [traverseOpt, Option.some.injEq] at h
    subst h
    simp
  | a :: l, _, h => by
    obtain ⟨b, bs, hfa, hfl, rfl⟩ := traverseOpt_cons_eq_some h
    intro x hx
    rcases List.mem_cons.mp hx with rfl | hx
    · exact H a x hfa
    · exact traverseOpt_forall H hfl x hx

theorem filterMap_flatten_eq {α β : Type} (f : α → Option β) (L : List (List α)) :
    L.flatten.filterMap f = (L.map (List.filterMap f)).flatten := by
  induction L with
  | nil => rfl
  | cons a L ih => simp [List.filterMap_append, ih]

theorem flatten_map_singleton {α : Type} (l : List α) :
    (l.map (fun a => [a])).flatten = l := by
  induction l with
  | nil => rfl
  | cons a l ih => simp [ih]

/-- Inversion for a successful per-scenario PDF section: both catalog
lookups succeeded and the section is the literal line list. -/
theorem scenarioSection_eq_some {t : Option ℚ} {name : String} {sec : List PdfLine}
    (h : scenarioSection t name = some sec) :
    ∃ d desc, List.lookup name scenario_data = some d ∧
      List.lookup name scenario_definitions = some desc ∧
      sec = [PdfLine.scenarioHeader name, PdfLine.description desc,
             PdfLine.temperaturePathway d.temperature_pathway,
             PdfLine.carbonPrice d.carbon_price] ++
            estimateLines t d ++ [PdfLine.blank] := by
  cases h1 : List.lookup name scenario_data with
  | none => simp [scenarioSection, h1] at h
  | some d =>
    cases h2 : List.lookup name scenario_definitions with
    | none => simp [scenarioSection, h1, h2] at h
    | some desc =>
      refine ⟨d, desc, rfl, rfl, ?_⟩
      simp only [scenarioSection, h1, h2] at h
      exact (Option.some.inj h).symm

theorem scenarioSection_headers {t : Option ℚ} {name : String} {sec : List PdfLine}
    (h : scenarioSection t name = some sec) : scenarioHeaders sec = [name] := by
  obtain ⟨d, desc, -, -, rfl⟩ := scenarioSection_eq_some h
  cases t <;> simp [scenarioHeaders, lineScenarioName, estimateLines]

theorem scenarioSection_no_exposure_header {t : Option ℚ} {name : String}
    {sec : List PdfLine} (h : scenarioSection t name = some sec) :
    countExposureHeaders sec = 0 := by
  obtain ⟨d, desc, -, -, rfl⟩ := scenarioSection_eq_some h
  cases t <;> simp [countExposureHeaders, isExposureHeader, estimateLines]

theorem scenarioSection_none_no_estimates {name : String} {sec : List PdfLine}
    (h : scenarioSection none name = some sec) :
    estimateVaRs sec = [] ∧ estimateLosses sec = [] := by
  obtain ⟨d, desc, -, -, rfl⟩ := scenarioSection_eq_some h
  simp [estimateVaRs, estimateLosses, lineVaR, lineLoss, estimateLines]

theorem scenarioSection_some_estimates {total : ℚ} {name : String} {sec : List PdfLine}
    (h : scenarioSection (some total) name = some sec) :
    ∃ d, List.lookup name scenario_data = some d ∧
      estimateVaRs sec = [pdfEstimatedVar true total d] ∧
      estimateLosses sec = [pdfEstimatedLoss true total d] := by
  obtain ⟨d, desc, hd, -, rfl⟩ := scenarioSection_eq_some h
  exact ⟨d, hd, by simp [estimateVaRs, lineVaR, estimateLines],
         by simp [estimateLosses, lineLoss, estimateLines]⟩

/-- Inversion for a successful exposure listing: one header line followed
by exposure rows only. -/
theorem exposureListing_eq_some {df : DataFrame} {body : List PdfLine}
    (h : exposureListing df = some body) :
    ∃ tail : List PdfLine, body = PdfLine.exposureHeader :: tail ∧
      ∀ l ∈ tail, ∃ s q, l = PdfLine.exposureRow s q := by
  cases h1 : df.columns.findIdx? (fun c => c == "Sector") with
  | none => simp [exposureListing, h1] at h
  | some i =>
    cases h2 : df.columns.findIdx? (fun c => c == "Exposure_M AUD") with
    | none => simp [exposureListing, h1, h2] at h
    | some j =>
      simp [exposureListing, h1, h2] at h
      refine ⟨body.tail, ?_, ?_⟩
      · simp [← h]
      · intro l hl
        rw [← h] at hl
        simp at hl
        obtain ⟨r, -, rfl⟩ := hl
        exact ⟨_, _, rfl⟩

theorem exposureListing_headers {df : DataFrame} {body : List PdfLine}
    (h : exposureListing df = some body) :
    scenarioHeaders body = [] ∧ estimateVaRs body = [] ∧ estimateLosses body = [] ∧
      countExposureHeaders body = 1 := by
  obtain ⟨tail, rfl, htail⟩ := exposureListing_eq_some h
  have hrow : ∀ P : PdfLine → Prop,
      (∀ s q, P (PdfLine.exposureRow s q)) → ∀ l ∈ tail, P l := by
    intro P hP l hl
    obtain ⟨s, q, rfl⟩ := htail l hl
    exact hP s q
  refine ⟨?_, ?_, ?_, ?_⟩
  · simp only [scenarioHeaders, List.filterMap_cons]
    rw [List.filterMap_eq_nil_iff.mpr]
    · rfl
    · exact hrow (fun l => lineScenarioName l = none) (fun s q => rfl)
  · simp only [estimateVaRs, List.filterMap_cons]
    rw [List.filterMap_eq_nil_iff.mpr]
    · rfl
    · exact hrow (fun l => lineVaR l = none) (fun s q => rfl)
  · simp only [estimateLosses, List.filterMap_cons]
    rw [List.filterMap_eq_nil_iff.mpr]
    · rfl
    · exact hrow (fun l => lineLoss l = none) (fun s q => rfl)
  · simp only [countExposureHeaders, List.countP_cons]
    rw [List.countP_eq_zero.mpr]
    · rfl
    · exact hrow (fun l => ¬isExposureHeader l = true)
        (fun s q => by simp [isExposureHeader])

/-- Inversion for successful PDF generation with an upload: the scenario
traversal and the listing both succeeded and the line stream is the
sections followed by the listing. -/
theorem generatePdf_upload_eq_some {sel : List String} {df : DataFrame}
    {total : ℚ} {lines : List PdfLine}
    (ht : totalExposure df = some total)
    (h : generatePdf sel (some df) = some lines) :
    ∃ secs body, traverseOpt (scenarioSection (some total)) sel = some secs ∧
      exposureListing df = some body ∧ lines = secs.flatten ++ body := by
  simp only [generatePdf, ht, Option.bind_eq_bind, Option.some_bind] at h
  cases hsecs : traverseOpt (scenarioSection (some total)) sel with
  | none => rw [hsecs] at h; simp at h
  | some secs =>
    rw [hsecs] at h
    simp only [Option.some_bind] at h
    cases hbody : exposureListing df with
    | none => rw [hbody] at h; simp at h
    | some body =>
      rw [hbody] at h
      simp only [Option.some_bind] at h
      exact ⟨secs, body, rfl, rfl, (Option.some.inj h).symm⟩

/-- Inversion for successful PDF generation with no upload: the scenario
traversal succeeded and the line stream is just the flattened sections. -/
theorem generatePdf_absent_eq_some {sel : List String} {lines : List PdfLine}
    (h : generatePdf sel none = some lines) :
    ∃ secs, traverseOpt (scenarioSection none) sel = some secs ∧
      lines = secs.flatten := by
  replace h : (traverseOpt (scenarioSection none) sel).map List.flatten = some lines := h
  cases hsecs : traverseOpt (scenarioSection none) sel with
  | none => rw [hsecs] at h; simp at h
  | some secs =>
    rw [hsecs] at h
    simp only [Option.map_some'] at h
    exact ⟨secs, rfl, (Option.some.inj h).symm⟩

/-! ## Claims -/

/-- C1: for every scenario in the catalog and every present exposure
dataset with total exposure `total`, both computation sites produce
`estimated_transition_var = total * (risk_profile[0] / 10)` and
`estimated_physical_loss = total * physical_risk_factor`. The arithmetic
is exact over `ℚ`, hence in particular within tolerance `1e-9`. -/
theorem C1_derived_metric_formulas (name : String) (d : Scenario) (total : ℚ)
    (_h : List.lookup name scenario_data = some d) :
    chartVar total d = total * (d.risk_profile.headD 0 / 10) ∧
    chartLoss total d = total * d.physical_risk ∧
    pdfEstimatedVar true total d = total * (d.risk_profile.headD 0 / 10) ∧
    pdfEstimatedLoss true total d = total * d.physical_risk := by
  refine ⟨rfl, rfl, ?_, ?_⟩ <;> simp [pdfEstimatedVar, pdfEstimatedLoss]

theorem C1_witness :
    List.lookup "Net Zero 2050" scenario_data = some netZeroParams ∧
    (chartVar 150 netZeroParams = 150 * (netZeroParams.risk_profile.headD 0 / 10) ∧
     chartLoss 150 netZeroParams = 150 * netZeroParams.physical_risk ∧
     pdfEstimatedVar true 150 netZeroParams =
       150 * (netZeroParams.risk_profile.headD 0 / 10) ∧
     pdfEstimatedLoss true 150 netZeroParams = 150 * netZeroParams.physical_risk) :=
  ⟨by rfl, C1_derived_metric_formulas "Net Zero 2050" netZeroParams 150 (by rfl)⟩

/-- C2, counterexample: with no uploaded dataset the PDF-export site
(src lines 123-124) computes both derived fields as the defined value `0`
(the `else 0` branches), not as an undefined value, contradicting the
claim that both fields are "undefined (not zero)". Shown here for the
concrete scenario `"Net Zero 2050"`. -/
theorem C2_counterexample :
    List.lookup "Net Zero 2050" scenario_data = some netZeroParams ∧
    pdfEstimatedVar false 0 netZeroParams = 0 ∧
    pdfEstimatedLoss false 0 netZeroParams = 0 :=
  ⟨by rfl, by rfl, by rfl⟩

/-- C2, amended: with no uploaded dataset the PDF-export site computes
zero placeholders for both fields (not undefined values), but no output
surface renders a monetary figure: the bar chart is absent and the
generated PDF contains no Estimated Transition VaR and no Estimated
Physical Risk Loss line. -/
theorem C2_amended_absent_renders_nothing (sel : List String) (lines : List PdfLine)
    (h : generatePdf sel none = some lines) :
    (∀ (t : ℚ) (d : Scenario),
      pdfEstimatedVar false t d = 0 ∧ pdfEstimatedLoss false t d = 0) ∧
    barChartOutput sel none = some BarChart.absent ∧
    estimateVaRs lines = [] ∧ estimateLosses lines = [] := by
  obtain ⟨secs, hsecs, rfl⟩ := generatePdf_absent_eq_some h
  refine ⟨fun t d => ⟨rfl, rfl⟩, rfl, ?_, ?_⟩
  · rw [estimateVaRs, filterMap_flatten_eq, List.flatten_eq_nil_iff]
    intro l hl
    obtain ⟨sec, hsec, rfl⟩ := List.mem_map.mp hl
    have hsrc := traverseOpt_forall
      (fun a b hb => (scenarioSection_none_no_estimates hb).1) hsecs sec hsec
    exact hsrc
  · rw [estimateLosses, filterMap_flatten_eq, List.flatten_eq_nil_iff]
    intro l hl
    obtain ⟨sec, hsec, rfl⟩ := List.mem_map.mp hl
    exact traverseOpt_forall
      (fun a b hb => (scenarioSection_none_no_estimates hb).2) hsecs sec hsec

theorem C2_amended_witness :
    (∀ (t : ℚ) (d : Scenario),
      pdfEstimatedVar false t d = 0 ∧ pdfEstimatedLoss false t d = 0) ∧
    barChartOutput ["Net Zero 2050"] none = some BarChart.absent ∧
    estimateVaRs
      [PdfLine.scenarioHeader "Net Zero 2050",
       PdfLine.description
         "Immediate and ambitious mitigation aligned with 1.5°C. (ASRS Ref: Strategy S2-6, Metrics M2-1)",
       PdfLine.temperaturePathway "1.5°C", PdfLine.carbonPrice 130,
       PdfLine.blank] = [] ∧
    estimateLosses
      [PdfLine.scenarioHeader "Net Zero 2050",
       PdfLine.description
         "Immediate and ambitious mitigation aligned with 1.5°C. (ASRS Ref: Strategy S2-6, Metrics M2-1)",
       PdfLine.temperaturePathway "1.5°C", PdfLine.carbonPrice 130,
       PdfLine.blank] = [] :=
  C2_amended_absent_renders_nothing ["Net Zero 2050"] _ (by rfl)

/-- C3: with an uploaded dataset, the caller-supplied selection order is
preserved identically on both output surfaces (bar-chart group order and
PDF section order), the full exposure row listing appears exactly once,
as a suffix at the very end of the report, and is not duplicated per
scenario; with no dataset the PDF still preserves selection order and
contains no exposure listing at all. -/
theorem C3_order_and_single_listing (sel : List String) (df : DataFrame)
    (total : ℚ) (gs : List (String × ℚ × ℚ)) (lines body : List PdfLine)
    (ht : totalExposure df = some total)
    (hb : barChartGroups sel total = some gs)
    (hp : generatePdf sel (some df) = some lines)
    (hl : exposureListing df = some body) :
    gs.map Prod.fst = sel ∧
    scenarioHeaders lines = sel ∧
    countExposureHeaders lines = 1 ∧
    body <:+ lines ∧
    (∀ lines0, generatePdf sel none = some lines0 →
      scenarioHeaders lines0 = sel ∧ countExposureHeaders lines0 = 0) := by
  obtain ⟨secs, body', hsecs, hl', rfl⟩ := generatePdf_upload_eq_some ht hp
  rw [hl'] at hl
  obtain rfl := Option.some.inj hl
  have hsections_headers : ∀ (t : Option ℚ) (sel0 : List String)
      (secs0 : List (List PdfLine)),
      traverseOpt (scenarioSection t) sel0 = some secs0 →
      scenarioHeaders secs0.flatten = sel0 := by
    intro t sel0 secs0 hs
    rw [scenarioHeaders, filterMap_flatten_eq]
    have hmap : secs0.map (List.filterMap lineScenarioName) =
        sel0.map (fun s => [s]) :=
      traverseOpt_map_rel (fun a b hb0 => scenarioSection_headers hb0) hs
    rw [hmap, flatten_map_singleton]
  have hsections_count : ∀ (t : Option ℚ) (sel0 : List String)
      (secs0 : List (List PdfLine)),
      traverseOpt (scenarioSection t) sel0 = some secs0 →
      countExposureHeaders secs0.flatten = 0 := by
    intro t sel0 secs0 hs
    rw [countExposureHeaders, List.countP_eq_zero]
    intro a ha
    obtain ⟨sec, hsec, hmem⟩ := List.mem_flatten.mp ha
    have hzero := traverseOpt_forall
      (fun a0 b0 hb0 => scenarioSection_no_exposure_header hb0) hs sec hsec
    exact (List.countP_eq_zero.mp hzero) a hmem
  obtain ⟨hbody_h, -, -, hbody_c⟩ := exposureListing_headers hl'
  refine ⟨?_, ?_, ?_, List.suffix_append _ _, ?_⟩
  · have := traverseOpt_map_rel
      (f := barChartGroup total) (g := Prod.fst) (k := id) ?_ hb
    · simpa using this
    · intro a b hab
      cases h1 : List.lookup a scenario_data with
      | none => rw [barChartGroup, h1] at hab; simp at hab
      | some d =>
        rw [barChartGroup, h1] at hab
        obtain rfl := Option.some.inj hab
        rfl
  · rw [scenarioHeaders, List.filterMap_append, ← scenarioHeaders,
      ← scenarioHeaders, hsections_headers _ _ _ hsecs, hbody_h,
      List.append_nil]
  · rw [countExposureHeaders, List.countP_append, ← countExposureHeaders,
      ← countExposureHeaders, hsections_count _ _ _ hsecs, hbody_c]
  · intro lines0 h0
    obtain ⟨secs0, hsecs0, rfl⟩ := generatePdf_absent_eq_some h0
    exact ⟨hsections_headers _ _ _ hsecs0, hsections_count _ _ _ hsecs0⟩

theorem C3_witness :
    ([("Hot House World", chartVar 0 hotHouseParams, chartLoss 0 hotHouseParams),
      ("Net Zero 2050", chartVar 0 netZeroParams, chartLoss 0 netZeroParams)].map
        Prod.fst = ["Hot House World", "Net Zero 2050"]) ∧
    scenarioHeaders
      ([PdfLine.scenarioHeader "Hot House World",
        PdfLine.description
          "No meaningful transition, resulting in >3°C warming. (ASRS Ref: Risk R2-1, Metrics M2-2)",
        PdfLine.temperaturePathway ">3°C", PdfLine.carbonPrice 0,
        PdfLine.estimatedVaR (pdfEstimatedVar true 0 hotHouseParams),
        PdfLine.estimatedLoss (pdfEstimatedLoss true 0 hotHouseParams),
        PdfLine.blank,
        PdfLine.scenarioHeader "Net Zero 2050",
        PdfLine.description
          "Immediate and ambitious mitigation aligned with 1.5°C. (ASRS Ref: Strategy S2-6, Metrics M2-1)",
        PdfLine.temperaturePathway "1.5°C", PdfLine.carbonPrice 130,
        PdfLine.estimatedVaR (pdfEstimatedVar true 0 netZeroParams),
        PdfLine.estimatedLoss (pdfEstimatedLoss true 0 netZeroParams),
        PdfLine.blank, PdfLine.exposureHeader]) =
      ["Hot House World", "Net Zero 2050"] ∧
    countExposureHeaders
      [PdfLine.scenarioHeader "Hot House World",
       PdfLine.description
         "No meaningful transition, resulting in >3°C warming. (ASRS Ref: Risk R2-1, Metrics M2-2)",
       PdfLine.temperaturePathway ">3°C", PdfLine.carbonPrice 0,
       PdfLine.estimatedVaR (pdfEstimatedVar true 0 hotHouseParams),
       PdfLine.estimatedLoss (pdfEstimatedLoss true 0 hotHouseParams),
       PdfLine.blank,
       PdfLine.scenarioHeader "Net Zero 2050",
       PdfLine.description
         "Immediate and ambitious mitigation aligned with 1.5°C. (ASRS Ref: Strategy S2-6, Metrics M2-1)",
       PdfLine.temperaturePathway "1.5°C", PdfLine.carbonPrice 130,
       PdfLine.estimatedVaR (pdfEstimatedVar true 0 netZeroParams),
       PdfLine.estimatedLoss (pdfEstimatedLoss true 0 netZeroParams),
       PdfLine.blank, PdfLine.exposureHeader] = 1 ∧
    [PdfLine.exposureHeader] <:+
      [PdfLine.scenarioHeader "Hot House World",
       PdfLine.description
         "No meaningful transition, resulting in >3°C warming. (ASRS Ref: Risk R2-1, Metrics M2-2)",
       PdfLine.temperaturePathway ">3°C", PdfLine.carbonPrice 0,
       PdfLine.estimatedVaR (pdfEstimatedVar true 0 hotHouseParams),
       PdfLine.estimatedLoss (pdfEstimatedLoss true 0 hotHouseParams),
       PdfLine.blank,
       PdfLine.scenarioHeader "Net Zero 2050",
       PdfLine.description
         "Immediate and ambitious mitigation aligned with 1.5°C. (ASRS Ref: Strategy S2-6, Metrics M2-1)",
       PdfLine.temperaturePathway "1.5°C", PdfLine.carbonPrice 130,
       PdfLine.estimatedVaR (pdfEstimatedVar true 0 netZeroParams),
       PdfLine.estimatedLoss (pdfEstimatedLoss true 0 netZeroParams),
       PdfLine.blank, PdfLine.exposureHeader] ∧
    (∀ lines0,
      generatePdf ["Hot House World", "Net Zero 2050"] none = some lines0 →
      scenarioHeaders lines0 = ["Hot House World", "Net Zero 2050"] ∧
      countExposureHeaders lines0 = 0) :=
  C3_order_and_single_listing ["Hot House World", "Net Zero 2050"] emptyRowsDF 0
    _ _ _ (by rfl) (by rfl) (by rfl) (by rfl)

/-- C4, counterexample: a syntactically well-formed upload whose only
exposure value is the negative number `-5` is accepted by the upload path
without any error (`InvalidExposureValue` or otherwise): the total is
computed as `-5`. The claim that parsing fails when a value cannot be
interpreted as a non-negative number is false of the code. -/
theorem C4_counterexample :
    totalExposure negDF = some (-5) ∧ totalExposure negDF ≠ none := by
  have h : totalExposure negDF = some (-5) := by
    simp [totalExposure, DataFrame.getCol, negDF, List.findIdx?, Cell.asNum]
  exact ⟨h, by simp [h]⟩

/-- C4, amended: the upload path validates nothing about the values. The
only failure is the missing `"Exposure_M AUD"` column, which surfaces as
an unhandled `KeyError` at the summation (not as a dedicated
`MalformedExposureFile` error); a missing sector column does not fail at
upload time, and any exposure values — negative ones included — are
accepted without error. -/
theorem C4_amended_no_validation (df : DataFrame) :
    totalExposure df = none ↔ "Exposure_M AUD" ∉ df.columns := by
  rw [totalExposure, DataFrame.getCol]
  simp only [Option.map_eq_none', List.findIdx?_eq_none_iff]
  constructor
  · intro h hmem
    have := h _ hmem
    simp at this
  · intro h x hx
    rw [beq_eq_false_iff_ne]
    intro heq
    exact h (heq ▸ hx)

theorem C4_amended_witness :
    totalExposure noExposureColDF = none :=
  (C4_amended_no_validation noExposureColDF).mpr (by decide)

/-- C6: a successfully read exposure column sums to exactly the sum of
its parsed row values (no rounding: the model is exact rational
arithmetic), and a dataset with zero rows yields total `0`. -/
theorem C6_total_is_exact_sum (df : DataFrame) (vs : List ℚ)
    (h : exposureValues df = some vs) :
    totalExposure df = some vs.sum ∧
    (df.rows = [] → vs = [] ∧ totalExposure df = some 0) := by
  cases hcol : df.getCol "Exposure_M AUD" with
  | none => rw [exposureValues, hcol] at h; simp at h
  | some col =>
    rw [exposureValues, hcol] at h
    simp only [Option.map_some'] at h
    obtain rfl := (Option.some.inj h).symm
    constructor
    · rw [totalExposure, hcol]
      rfl
    · intro hrows
      have hcoln : col = [] := by
        rw [DataFrame.getCol, hrows] at hcol
        cases hidx : df.columns.findIdx? (fun c => c == "Exposure_M AUD") with
        | none => rw [hidx] at hcol; simp at hcol
        | some i =>
          rw [hidx] at hcol
          simp only [Option.map_some', List.map_nil] at hcol
          exact (Option.some.inj hcol).symm
      subst hcoln
      refine ⟨rfl, ?_⟩
      rw [totalExposure, hcol]
      rfl

theorem C6_witness :
    exposureValues exDF = some [100, 50] ∧
    (totalExposure exDF = some ([100, 50] : List ℚ).sum ∧
     (exDF.rows = [] → ([100, 50] : List ℚ) = [] ∧ totalExposure exDF = some 0)) :=
  ⟨by rfl, C6_total_is_exact_sum exDF [100, 50] (by rfl)⟩

/-- The (transition VaR, physical loss) figures printed per section of a
successful scenario traversal equal the figures of the bar-chart groups,
scenario by scenario: the lemma behind claim C5, proved by walking both
traversals in parallel. -/
theorem sections_estimates_eq_chart (total : ℚ) :
    ∀ (sel : List String) (gs : List (String × ℚ × ℚ))
      (secs : List (List PdfLine)),
      barChartGroups sel total = some gs →
      traverseOpt (scenarioSection (some total)) sel = some secs →
      estimateVaRs secs.flatten = gs.map (fun g => g.2.1) ∧
      estimateLosses secs.flatten = gs.map (fun g => g.2.2)
  | [], gs, secs, hb, hp => by
    simp only [barChartGroups, traverseOpt, Option.some.injEq] at hb hp
    subst hb
    subst hp
    simp [estimateVaRs, estimateLosses]
  | s :: sel, _, _, hb, hp => by
    rw [barChartGroups] at hb
    obtain ⟨g, gs, hg, hgs, rfl⟩ := traverseOpt_cons_eq_some hb
    obtain ⟨sec, secs, hsec, hsecs, rfl⟩ := traverseOpt_cons_eq_some hp
    obtain ⟨d, hd, hvar, hloss⟩ := scenarioSection_some_estimates hsec
    rw [barChartGroup, hd, Option.map_some'] at hg
    obtain rfl := (Option.some.inj hg).symm
    have ih := sections_estimates_eq_chart total sel gs secs
      (by rw [barChartGroups]; exact hgs) hsecs
    constructor
    · rw [List.flatten_cons, estimateVaRs, List.filterMap_append,
        ← estimateVaRs, ← estimateVaRs, hvar, ih.1, List.map_cons]
      rfl
    · rw [List.flatten_cons, estimateLosses, List.filterMap_append,
        ← estimateLosses, ← estimateLosses, hloss, ih.2, List.map_cons]
      rfl

/-- C5: the derived-metric computation replicated at the bar-chart site
and at the PDF-export site is the same function: for any selection and
present dataset on which both surfaces were produced, the
(transition VaR, physical loss) figures printed in the PDF equal, in
order, the figures of the bar-chart groups; and pointwise, for any
scenario parameters and any total, the two sites compute equal pairs. -/
theorem C5_chart_pdf_same_function (sel : List String) (df : DataFrame)
    (total : ℚ) (gs : List (String × ℚ × ℚ)) (lines : List PdfLine)
    (ht : totalExposure df = some total)
    (hb : barChartOutput sel (some df) = some (BarChart.rendered gs))
    (hp : generatePdf sel (some df) = some lines) :
    (∀ (t : ℚ) (d : Scenario),
      (chartVar t d, chartLoss t d) = (pdfEstimatedVar true t d, pdfEstimatedLoss true t d)) ∧
    estimateVaRs lines = gs.map (fun g => g.2.1) ∧
    estimateLosses lines = gs.map (fun g => g.2.2) := by
  obtain ⟨secs, body, hsecs, hbody, rfl⟩ := generatePdf_upload_eq_some ht hp
  have hb' : barChartGroups sel total = some gs := by
    simp only [barChartOutput, ht, Option.bind_eq_bind, Option.some_bind] at hb
    cases hgs : barChartGroups sel total with
    | none => rw [hgs] at hb; simp at hb
    | some gs0 =>
      rw [hgs] at hb
      simp only [Option.some_bind, Option.pure_def, Option.some.injEq,
        BarChart.rendered.injEq] at hb
      rw [hb]
  obtain ⟨hvars, hlosses⟩ := sections_estimates_eq_chart total sel gs secs hb' hsecs
  obtain ⟨-, hbv, hbl, -⟩ := exposureListing_headers hbody
  refine ⟨fun t d => ?_, ?_, ?_⟩
  · simp [chartVar, chartLoss, pdfEstimatedVar, pdfEstimatedLoss]
  · rw [estimateVaRs, List.filterMap_append, ← estimateVaRs, ← estimateVaRs,
      hvars, hbv, List.append_nil]
  · rw [estimateLosses, List.filterMap_append, ← estimateLosses,
      ← estimateLosses, hlosses, hbl, List.append_nil]

theorem C5_witness :
    (∀ (t : ℚ) (d : Scenario),
      (chartVar t d, chartLoss t d) = (pdfEstimatedVar true t d, pdfEstimatedLoss true t d)) ∧
    estimateVaRs
      [PdfLine.scenarioHeader "Net Zero 2050",
       PdfLine.description
         "Immediate and ambitious mitigation aligned with 1.5°C. (ASRS Ref: Strategy S2-6, Metrics M2-1)",
       PdfLine.temperaturePathway "1.5°C", PdfLine.carbonPrice 130,
       PdfLine.estimatedVaR (pdfEstimatedVar true 0 netZeroParams),
       PdfLine.estimatedLoss (pdfEstimatedLoss true 0 netZeroParams),
       PdfLine.blank, PdfLine.exposureHeader] =
      [("Net Zero 2050", chartVar 0 netZeroParams,
        chartLoss 0 netZeroParams)].map (fun g => g.2.1) ∧
    estimateLosses
      [PdfLine.scenarioHeader "Net Zero 2050",
       PdfLine.description
         "Immediate and ambitious mitigation aligned with 1.5°C. (ASRS Ref: Strategy S2-6, Metrics M2-1)",
       PdfLine.temperaturePathway "1.5°C", PdfLine.carbonPrice 130,
       PdfLine.estimatedVaR (pdfEstimatedVar true 0 netZeroParams),
       PdfLine.estimatedLoss (pdfEstimatedLoss true 0 netZeroParams),
       PdfLine.blank, PdfLine.exposureHeader] =
      [("Net Zero 2050", chartVar 0 netZeroParams,
        chartLoss 0 netZeroParams)].map (fun g => g.2.2) :=
  C5_chart_pdf_same_function ["Net Zero 2050"] emptyRowsDF 0 _ _
    (by rfl) (by rfl) (by rfl)

/-- C7: every scenario of the catalog has a `risk_profile` of length
exactly 5, a `physical_risk` factor in `[0, 1]` and a non-negative
`carbon_price`; and the definitions table and the parameters table list
exactly the same scenario names (even in the same order), so the two
catalogs are referentially intact. -/
theorem C7_catalog_invariants :
    scenario_data.Forall (fun p =>
      p.2.risk_profile.length = 5 ∧
      0 ≤ p.2.physical_risk ∧ p.2.physical_risk ≤ 1 ∧
      0 ≤ p.2.carbon_price) ∧
    scenario_definitions.map Prod.fst = scenario_data.map Prod.fst := by
  constructor
  · simp only [scenario_data, netZeroParams, hotHouseParams, List.Forall]
    norm_num
  · rfl

/-- C8: industry defaults lookup never fails — for any industry value
outside the defaults table it returns the single fallback
`["Net Zero 2050"]` instead of raising. -/
theorem C8_defaults_fallback (industry : String)
    (h : industry ∉ industry_defaults.map Prod.fst) :
    default_scenarios industry = ["Net Zero 2050"] := by
  have hnone : List.lookup industry industry_defaults = none := by
    rw [List.lookup_eq_none_iff]
    intro p hp
    have hmem : p.1 ∈ industry_defaults.map Prod.fst :=
      List.mem_map_of_mem Prod.fst hp
    rw [bne_iff_ne]
    intro heq
    exact h (heq ▸ hmem)
  rw [default_scenarios, hnone, Option.getD_none]

theorem C8_witness :
    ("Unknown/Other" ∉ industry_defaults.map Prod.fst) ∧
    default_scenarios "Unknown/Other" = ["Net Zero 2050"] :=
  ⟨by decide, C8_defaults_fallback "Unknown/Other" (by decide)⟩

/-- C9 (evaluating the code at the failing input): the selection widget
is handed all five catalog names as options and no `max_selections`
bound, so selecting all five is a reachable selection state — it is
duplicate-free and drawn from the options — and it has length 5 > 3,
flowing downstream to every output surface. -/
theorem C9_five_scenarios_selectable :
    reachableSelection scenarioOptions ∧ scenarioOptions.length = 5 :=
  ⟨⟨by decide, fun s hs => hs⟩, rfl⟩

/-- C10: with zero scenarios selected every operation still completes:
the radar chart has no rings, the bar chart renders with zero groups when
a dataset is present (and is absent without one), and the generated PDF
consists of no scenario sections — just the exposure listing when a
dataset was uploaded, and nothing at all otherwise. -/
theorem C10_empty_selection_safe (df : DataFrame) (total : ℚ)
    (body : List PdfLine)
    (ht : totalExposure df = some total) (hl : exposureListing df = some body) :
    radarChart [] = some [] ∧
    barChartOutput [] (some df) = some (BarChart.rendered []) ∧
    barChartOutput [] none = some BarChart.absent ∧
    generatePdf [] (some df) = some body ∧
    scenarioHeaders body = [] ∧
    countExposureHeaders body = 1 ∧
    generatePdf [] none = some [] := by
  obtain ⟨hh, -, -, hc⟩ := exposureListing_headers hl
  refine ⟨rfl, ?_, rfl, ?_, hh, hc, rfl⟩
  · simp [barChartOutput, ht, barChartGroups, traverseOpt]
  · simp [generatePdf, ht, traverseOpt, hl]

theorem C10_witness :
    radarChart [] = some [] ∧
    barChartOutput [] (some emptyRowsDF) = some (BarChart.rendered []) ∧
    barChartOutput [] none = some BarChart.absent ∧
    generatePdf [] (some emptyRowsDF) = some [PdfLine.exposureHeader] ∧
    scenarioHeaders [PdfLine.exposureHeader] = [] ∧
    countExposureHeaders [PdfLine.exposureHeader] = 1 ∧
    generatePdf [] none = some [] :=
  C10_empty_selection_safe emptyRowsDF 0 [PdfLine.exposureHeader]
    (by rfl) (by rfl)

end ASRSClimate
